import Mathlib

/-!
Shallow embedding of the organixa storefront client (TypeScript/Next.js) and
proofs about its pure data transformations: the dashboard aggregate cache
(`fetchStats` in the zustand store), the media path/URL resolution helpers,
the upload filename sanitization, the discount-percentage display, the stock
classification, and the address-form default-flag maintenance.

Conventions of the embedding:
* JS numbers used as money or quantity are modelled as exact rationals (ℚ)
  resp. naturals; timestamps and calendar days as integers (ℤ).
* `Date` values normalized to local midnight and keyed through
  `toISOString().split('T')[0]` are modelled by an integer day index
  (`purchase_day`); the locale-formatted chart labels are represented by the
  day keys they are formatted from.
* Nullable JS values are `Option`; JS truthiness of a number n is `n ≠ 0`,
  of an object `Option.isSome`, of a string `s ≠ ""`.
* Backend responses consumed by a single `fetchStats` execution are collected
  in a `Backend` record; the list of table reads actually issued
  (`supabase.from(...)`) is returned as an explicit trace.
-/

namespace Organixa

/-- Character class of the sanitization regex `[^a-zA-Z0-9.-]` in
`test_regex.ts` and `add-product/page.tsx`: a character is kept iff it is an
ASCII letter, a digit, a dot or a hyphen. -/
def isSafeChar (c : Char) : Bool :=
  (decide (Char.ofNat 97 ≤ c) && decide (c ≤ Char.ofNat 122)) ||
  (decide (Char.ofNat 65 ≤ c) && decide (c ≤ Char.ofNat 90)) ||
  (decide (Char.ofNat 48 ≤ c) && decide (c ≤ Char.ofNat 57)) ||
  decide (c = Char.ofNat 46) || decide (c = Char.ofNat 45)

/-- Embedding of `fileName.replace(/[^a-zA-Z0-9.-]/g, "_")` from
`test_regex.ts` line 2 and `add-product/page.tsx` line 103: every character
outside the class is replaced by an underscore. -/
def sanitizedFileName (s : String) : String :=
  String.mk (s.data.map (fun c => if isSafeChar c then c else Char.ofNat 95))

/-- Numeric value of a hexadecimal digit, `none` for a non-hex character. -/
def hexVal (c : Char) : Option Nat :=
  if Char.ofNat 48 ≤ c ∧ c ≤ Char.ofNat 57 then some (c.toNat - 48)
  else if Char.ofNat 97 ≤ c ∧ c ≤ Char.ofNat 102 then some (c.toNat - 97 + 10)
  else if Char.ofNat 65 ≤ c ∧ c ≤ Char.ofNat 70 then some (c.toNat - 65 + 10)
  else none

/-- One pass of percent-decoding over a character list: each well-formed
escape `%hh` with byte value below 128 becomes the corresponding ASCII
character; everything else is copied. This models `decodeURIComponent` on the
ASCII fragment (on malformed escapes or non-ASCII bytes the JS function
raises `URIError`; the model copies them unchanged, and no theorem below
depends on such inputs). -/
def percentDecodeFuel : ℕ → List Char → List Char
  | 0, l => l
  | _ + 1, [] => []
  | fuel + 1, c :: rest =>
    if c = Char.ofNat 37 then
      match rest with
      | a :: b :: rest2 =>
        match hexVal a, hexVal b with
        | some x, some y =>
          if 16 * x + y < 128 then
            Char.ofNat (16 * x + y) :: percentDecodeFuel fuel rest2
          else c :: percentDecodeFuel fuel rest
        | _, _ => c :: percentDecodeFuel fuel rest
      | _ => c :: percentDecodeFuel fuel rest
    else c :: percentDecodeFuel fuel rest

/-- One pass of percent-decoding: the fuel (one unit per consumed character)
only serves to make the recursion structural and never runs out, as every
step consumes at least one character. -/
def percentDecodeAux (l : List Char) : List Char :=
  percentDecodeFuel l.length l

/-- Model of `decodeURIComponent` (ASCII fragment, see `percentDecodeAux`). -/
def decodeURIComponent (s : String) : String :=
  String.mk (percentDecodeAux s.data)

/-- Base of the public-object URLs produced by the storage SDK; modelled as a
fixed project URL prefix. -/
def supabaseStorageBase : String :=
  "https://project.supabase.co/storage/v1/object/public/"

/-- Model of `supabase.storage.from(bucket).getPublicUrl(path).data.publicUrl`:
the SDK concatenates the project base, the bucket and the path. -/
def getPublicUrl (bucket path : String) : String :=
  supabaseStorageBase ++ bucket ++ "/" ++ path

/-- Helper of `product/[id]/page.tsx` lines 194-201 (same code in
`addfav/page.tsx`, `orders/page.tsx`, `unnamed/part_003`, `unnamed/part_006`):
missing or empty path gives the placeholder, otherwise the path is
percent-decoded once and handed to the storage client. -/
def getPublicUrlFromPath (path : Option String) : String :=
  match path with
  | none => "/placeholder.svg"
  | some p =>
    if p = "" then "/placeholder.svg"
    else
      let decodedPath := decodeURIComponent p
      let url := getPublicUrl "product-media" decodedPath
      if url = "" then "/placeholder.svg" else url

/-- Helper of `unnamed/part_004` lines 30-39 (home page): placeholder on a
missing path, but the stored path is handed to the storage client without
any decoding. -/
def getPublicUrlFromPathHome (path : Option String) : String :=
  match path with
  | none => "/placeholder.svg"
  | some p =>
    if p = "" then "/placeholder.svg"
    else
      let url := getPublicUrl "product-media" p
      if url = "" then "/placeholder.svg" else url

/-- Helper of `company/dashboard/edit-product/[id]/page.tsx` lines 40-51 (same
code in `unnamed/part_002`): returns the empty string, not the placeholder,
for a missing path, and does not decode. -/
def getPublicUrlFromPathEditProduct (path : Option String) : String :=
  match path with
  | none => ""
  | some p =>
    if p = "" then ""
    else
      let url := getPublicUrl "product-media" p
      if url = "" then "" else url

/-- Model of JS `Math.round`: round half toward positive infinity. -/
def jsRound (x : ℚ) : ℤ := Int.floor (x + 1 / 2)

/-- Discount percentage of the add/edit product form (`unnamed/part_000`
lines 1119-1126): `Math.round((1 - discount / original) * 100)`. -/
def discountPercentForm (originalPrice discountPrice : ℚ) : ℤ :=
  jsRound ((1 - discountPrice / originalPrice) * 100)

/-- Display price of `product/[id]/page.tsx` line 279:
`product.discountPrice ?? product.originalPrice` (nullish coalescing). -/
def displayPrice (originalPrice : ℚ) (discountPrice : Option ℚ) : ℚ :=
  discountPrice.getD originalPrice

/-- Discount badge of `product/[id]/page.tsx` lines 628-633: rendered only
when `product.discountPrice` is truthy (present and nonzero), showing
`Math.round(((originalPrice - displayPrice) / originalPrice) * 100)`. -/
def discountBadge (originalPrice : ℚ) (discountPrice : Option ℚ) : Option ℤ :=
  match discountPrice with
  | none => none
  | some d =>
    if d = 0 then none
    else some (jsRound ((originalPrice - displayPrice originalPrice (some d))
      / originalPrice * 100))

/-- Stock label of the product card. -/
inductive StockLabel where
  | outOfStock
  | onlyFewLeft
  | inStock
deriving DecidableEq

/-- Embedding of `stockStatus` in `unnamed/part_004` lines 302-307:
`q === 0` gives "Out of Stock"; otherwise `q && q < 10` (truthiness: `q`
present and nonzero) gives "Only Few Left"; otherwise "In Stock".
`stock_quantity` is optional in that component. -/
def stockStatus (q : Option ℤ) : StockLabel :=
  if q = some 0 then StockLabel.outOfStock
  else
    match q with
    | some n => if n ≠ 0 ∧ n < 10 then StockLabel.onlyFewLeft else StockLabel.inStock
    | none => StockLabel.inStock

/-- Row of the `products` table as selected by `fetchStats`
(`id, product_name, discount_price, original_price, stock_quantity,
is_approved, product_photo_urls`). -/
structure ProductRow where
  id : String
  product_name : String
  discount_price : ℚ
  original_price : ℚ
  stock_quantity : ℤ
  is_approved : Bool
  product_photo_urls : List String
deriving DecidableEq

/-- Entry of an order's `order_items` JSON array as consumed by the
aggregation (`product_id`, `price_at_purchase`, `quantity`). -/
structure OrderItemRow where
  product_id : String
  price_at_purchase : ℚ
  quantity : ℕ
deriving DecidableEq

/-- Row of the `orders` table as selected by `fetchStats`
(`id, total_amount, status, order_items, purchase_time`). `order_items` is
`none` when the stored value is not an array (the code guards with
`Array.isArray`); `purchase_day` is the day index of `purchase_time`
normalized to midnight. -/
structure OrderRow where
  id : String
  total_amount : ℚ
  status : String
  order_items : Option (List OrderItemRow)
  purchase_day : ℤ
deriving DecidableEq

/-- Entry of the `allSellingProducts` list of the dashboard stats. -/
structure SellingProduct where
  product_id : String
  product_name : String
  units_sold : ℕ
  revenue_generated : ℚ
  product_photo_urls : List String
deriving DecidableEq

/-- The `DashboardStats` record of the store. `chartDayKeys` stands for the
two label arrays (`chartSalesLabels`, `chartXAxisLabels`), which are locale
formattings of exactly these day keys. -/
structure DashboardStats where
  companyName : String
  totalProducts : ℕ
  totalSalesAmount : ℚ
  totalOrders : ℕ
  pendingOrders : ℕ
  activeListings : ℕ
  outOfStockProducts : ℕ
  lowStockProducts : List ProductRow
  allSellingProducts : List SellingProduct
  chartSalesData : List ℕ
  chartDayKeys : List ℤ
deriving DecidableEq

/-- The `productSales` accumulator object: an association list (preserving
JS object insertion order) from product id to accumulated units and revenue. -/
def updateProductSales (sales : List (String × ℕ × ℚ)) (pid : String)
    (qty : ℕ) (rev : ℚ) : List (String × ℕ × ℚ) :=
  if sales.any (fun e => e.1 = pid) then
    sales.map (fun e => if e.1 = pid then (e.1, e.2.1 + qty, e.2.2 + rev) else e)
  else sales ++ [(pid, qty, rev)]

/-- Body of the inner `order.order_items.forEach` loop: for an item whose
product belongs to the company, set the `hasCompanyProductInOrder` flag, add
`price_at_purchase * quantity` to the order's company-specific amount, and
update `productSales`; other items are skipped. -/
def itemStep (ids : List String) (st : Bool × ℚ × List (String × ℕ × ℚ))
    (it : OrderItemRow) : Bool × ℚ × List (String × ℕ × ℚ) :=
  if ids.contains it.product_id then
    (true, st.2.1 + it.price_at_purchase * it.quantity,
      updateProductSales st.2.2 it.product_id it.quantity
        (it.price_at_purchase * it.quantity))
  else st

/-- The `salesByDate` map: an association list from day key to order count,
in insertion order. `bumpDate` is `if (salesByDate.has(k))
salesByDate.set(k, salesByDate.get(k) + 1)`. -/
def bumpDate (m : List (ℤ × ℕ)) (k : ℤ) : List (ℤ × ℕ) :=
  if m.any (fun e => e.1 = k) then
    m.map (fun e => if e.1 = k then (e.1, e.2 + 1) else e)
  else m

/-- The seven day keys initialised into `salesByDate`
(`for (let i = 6; i >= 0; i--) ... today - i`), in insertion order:
oldest (today − 6) first. -/
def chartDays (today : ℤ) : List ℤ :=
  (List.range 7).map (fun i => today - 6 + (i : ℤ))

/-- Accumulator of the outer `allOrdersData.forEach` loop. -/
structure AggState where
  totalSalesAmount : ℚ
  totalOrders : ℕ
  pendingOrders : ℕ
  productSales : List (String × ℕ × ℚ)
  salesByDate : List (ℤ × ℕ)
deriving DecidableEq

/-- Body of the outer `allOrdersData.forEach` loop: run the inner item loop,
then, when the order contains a company product, count it, add its
company-specific amount, count it as pending when its status is `pending` or
`confirmed`, and bump its day in `salesByDate` when the day is one of the
seven chart keys. -/
def orderStep (ids : List String) (st : AggState) (o : OrderRow) : AggState :=
  let inner := (o.order_items.getD []).foldl (itemStep ids)
    (false, 0, st.productSales)
  if inner.1 then
    { totalSalesAmount := st.totalSalesAmount + inner.2.1
      totalOrders := st.totalOrders + 1
      pendingOrders := st.pendingOrders +
        (if o.status = "pending" ∨ o.status = "confirmed" then 1 else 0)
      productSales := inner.2.2
      salesByDate := bumpDate st.salesByDate o.purchase_day }
  else { st with productSales := inner.2.2 }

/-- The whole order aggregation of `fetchStats`, starting from zero totals
and the seven-day `salesByDate` initialisation. -/
def aggregateOrders (ids : List String) (today : ℤ) (orders : List OrderRow) :
    AggState :=
  orders.foldl (orderStep ids)
    { totalSalesAmount := 0, totalOrders := 0, pendingOrders := 0,
      productSales := [],
      salesByDate := (chartDays today).map (fun d => (d, 0)) }

/-- Insertion into a list sorted ascending by day key (model of the
`sort((a, b) => dateA - dateB)` step over `salesByDate` entries). -/
def insertByDay (e : ℤ × ℕ) : List (ℤ × ℕ) → List (ℤ × ℕ)
  | [] => [e]
  | f :: rest => if e.1 ≤ f.1 then e :: f :: rest else f :: insertByDay e rest

/-- Ascending insertion sort by day key of the `salesByDate` entries. -/
def sortByDay (l : List (ℤ × ℕ)) : List (ℤ × ℕ) := l.foldr insertByDay []

/-- Insertion into a list sorted descending by `units_sold` (model of
`sort((a, b) => b.units_sold - a.units_sold)`). -/
def insertByUnits (e : SellingProduct) : List SellingProduct → List SellingProduct
  | [] => [e]
  | f :: rest =>
    if f.units_sold < e.units_sold then e :: f :: rest
    else f :: insertByUnits e rest

/-- Descending sort of `allSellingProducts` by units sold. -/
def sortByUnits (l : List SellingProduct) : List SellingProduct :=
  l.foldr insertByUnits []

/-- The `allSellingProducts` construction: map each `productSales` entry to a
`SellingProduct` (resolving name and photos through the product map, with
fallbacks), then sort by units sold descending. -/
def allSellingOf (products : List ProductRow)
    (sales : List (String × ℕ × ℚ)) : List SellingProduct :=
  sortByUnits (sales.map (fun e =>
    { product_id := e.1
      product_name := ((products.find? (fun p => p.id = e.1)).map
        (fun p => p.product_name)).getD "Unknown Product"
      units_sold := e.2.1
      revenue_generated := e.2.2
      product_photo_urls := ((products.find? (fun p => p.id = e.1)).map
        (fun p => p.product_photo_urls)).getD [] }))

/-- Client-side computation of the dashboard stats from the fetched company
name, product rows and order rows (`fetchStats` steps 2-5). -/
def computeStats (companyName : String) (products : List ProductRow)
    (orders : List OrderRow) (today : ℤ) : DashboardStats :=
  let ids := products.map (fun p => p.id)
  let agg := aggregateOrders ids today orders
  let sorted := sortByDay agg.salesByDate
  { companyName := companyName
    totalProducts := products.length
    totalSalesAmount := agg.totalSalesAmount
    totalOrders := agg.totalOrders
    pendingOrders := agg.pendingOrders
    activeListings := (products.filter (fun p => p.is_approved)).length
    outOfStockProducts := (products.filter (fun p => p.stock_quantity = 0)).length
    lowStockProducts := products.filter
      (fun p => 0 < p.stock_quantity ∧ p.stock_quantity < 10)
    allSellingProducts := allSellingOf products agg.productSales
    chartSalesData := sorted.map (fun e => e.2)
    chartDayKeys := sorted.map (fun e => e.1) }

/-- Cache freshness window: `CACHE_DURATION = 5 * 60 * 1000` milliseconds. -/
def CACHE_DURATION : ℤ := 5 * 60 * 1000

/-- The slice of the zustand store state touched by `fetchStats`. -/
structure StoreState where
  stats : Option DashboardStats
  loading : Bool
  error : Option String
  lastFetched : Option ℤ
deriving DecidableEq

/-- A table read issued through `supabase.from(...)` during a refresh (the
session retrieval `supabase.auth.getSession()` is an auth call, not a table
read, and is not traced). -/
inductive ReadOp where
  | readCompanies
  | readProducts
  | readOrders
deriving DecidableEq

/-- Responses the backend would give to the reads of one `fetchStats`
execution. `exn` models an exception thrown by any of the awaited calls
(caught by the surrounding `try`/`catch`, which reports
`error.message || "An unexpected error occurred"`). `companyData` carries the
company id and name; `productsData` the rows matching the company filter. -/
structure Backend where
  exn : Option String
  sessionError : Bool
  session : Option String
  companyError : Bool
  companyData : Option (String × String)
  productsError : Bool
  productsData : Option (List ProductRow)
  ordersError : Bool
  ordersData : Option (List OrderRow)

/-- The cache guard of `fetchStats`:
`!force && stats && lastFetched && (now - lastFetched < CACHE_DURATION)`.
JS truthiness: `stats` is truthy iff non-null, `lastFetched` iff non-null and
nonzero. -/
def cacheHit (force : Bool) (now : ℤ) (s : StoreState) : Bool :=
  !force && s.stats.isSome &&
    (match s.lastFetched with
     | some t => decide (t ≠ 0) && decide (now - t < CACHE_DURATION)
     | none => false)

/-- Embedding of `fetchStats` (both copies in `unnamed/part_000`, lines
92-262 and 369-557, whose logic is identical). Arguments: the `force` flag,
`now` (the `Date.now()` of the cache check), `fetchTime` (the `Date.now()`
written into `lastFetched` on success), `today` (the day index of the local
midnight used to key the chart), the backend responses, and the current
store state. Returns the new store state and the trace of table reads
issued. -/
def fetchStats (force : Bool) (now fetchTime today : ℤ) (b : Backend)
    (s : StoreState) : StoreState × List ReadOp :=
  if cacheHit force now s then
    ({ s with loading := false }, [])
  else
    let s0 := if s.stats.isNone then { s with loading := true, error := none }
      else s
    match b.exn with
    | some msg =>
      ({ s0 with
          error := some (if msg = "" then "An unexpected error occurred" else msg),
          loading := false }, [])
    | none =>
      if b.sessionError || b.session.isNone then
        ({ s0 with error := some "Authentication required.", loading := false }, [])
      else if b.companyError || b.companyData.isNone then
        ({ s0 with
            error := some "Company not found or not approved.",
            loading := false }, [ReadOp.readCompanies])
      else
        let companyName := (b.companyData.getD ("", "")).2
        if b.productsError then
          ({ s0 with
              error := some "Failed to load product data.",
              loading := false }, [ReadOp.readCompanies, ReadOp.readProducts])
        else
          let products := b.productsData.getD []
          if b.ordersError then
            ({ s0 with
                error := some "Failed to load order data.",
                loading := false },
              [ReadOp.readCompanies, ReadOp.readProducts, ReadOp.readOrders])
          else
            let orders := b.ordersData.getD []
            ({ stats := some (computeStats companyName products orders today),
                loading := false,
                error := none,
                lastFetched := some fetchTime },
              [ReadOp.readCompanies, ReadOp.readProducts, ReadOp.readOrders])

/-- An address entry of the user profile's `addresses` list. -/
structure Address where
  id : String
  name : String
  isDefault : Bool
  houseNumber : String
  street : String
  area : String
  city : String
  state : String
  country : String
  pincode : String
  primaryPhone : String
  secondaryPhone : String
deriving DecidableEq

/-- The address fields submitted by the address form (`profileName` excluded,
as the code destructures it away before building the address). -/
structure AddressFormValues where
  addressName : String
  houseNumber : String
  street : String
  area : String
  city : String
  state : String
  country : String
  pincode : String
  primaryPhone : String
  secondaryPhone : String
deriving DecidableEq

/-- The create path of the address-form `onSubmit` (both components in
`unnamed/part_000`, lines 1937-1948 and 2271-2287): every existing address is
set non-default and a new address built from the form values, with a fresh id
and `isDefault: true`, is appended. -/
def submitCreateAddresses (newId : String) (v : AddressFormValues)
    (currentAddresses : List Address) : List Address :=
  currentAddresses.map (fun a => { a with isDefault := false }) ++
    [{ id := newId
       name := v.addressName
       isDefault := true
       houseNumber := v.houseNumber
       street := v.street
       area := v.area
       city := v.city
       state := v.state
       country := v.country
       pincode := v.pincode
       primaryPhone := v.primaryPhone
       secondaryPhone := v.secondaryPhone }]

/-- The update path of the address-form `onSubmit` (`unnamed/part_000`, lines
1921-1936): the address whose id matches `editingAddressId` keeps its id,
receives the form values and `isDefault: true`; every other address is set
non-default. -/
def submitUpdateAddresses (editingAddressId : String) (v : AddressFormValues)
    (currentAddresses : List Address) : List Address :=
  currentAddresses.map (fun a =>
    if a.id = editingAddressId then
      { a with
        name := v.addressName
        isDefault := true
        houseNumber := v.houseNumber
        street := v.street
        area := v.area
        city := v.city
        state := v.state
        country := v.country
        pincode := v.pincode
        primaryPhone := v.primaryPhone
        secondaryPhone := v.secondaryPhone }
    else { a with isDefault := false })

/-- Number of addresses flagged as default. -/
def defaultCount (l : List Address) : ℕ :=
  (l.filter (fun a => a.isDefault)).length

/-- Specification-side predicate: the order contains at least one item whose
product belongs to the company (follows the spec's words; compared with the
aggregation loop's flag). -/
def orderHasCompanyProduct (ids : List String) (o : OrderRow) : Bool :=
  (o.order_items.getD []).any (fun it => ids.contains it.product_id)

/-- Specification-side value: the sum of `price_at_purchase * quantity` over
the company-owned items of an item list (follows the spec's words; compared
with the aggregation loop's accumulated amount). -/
def itemsCompanyAmount (ids : List String) (items : List OrderItemRow) : ℚ :=
  ((items.filter (fun it => ids.contains it.product_id)).map
    (fun it => it.price_at_purchase * (it.quantity : ℚ))).sum

/-- Specification-side value: the sum of `price_at_purchase * quantity` over
the order's company-owned items. -/
def orderCompanyAmount (ids : List String) (o : OrderRow) : ℚ :=
  itemsCompanyAmount ids (o.order_items.getD [])

/-- Specification-side value: the number of company-relevant orders whose
purchase day equals `d`. -/
def chartOrderCount (ids : List String) (orders : List OrderRow) (d : ℤ) : ℕ :=
  (orders.filter (fun o => orderHasCompanyProduct ids o ∧ o.purchase_day = d)).length

/-- Company A's two products for the spec's worked example. -/
def exampleProducts : List ProductRow :=
  [{ id := "p1", product_name := "Product 1", discount_price := 180,
     original_price := 200, stock_quantity := 5, is_approved := true,
     product_photo_urls := [] },
   { id := "p2", product_name := "Product 2", discount_price := 140,
     original_price := 150, stock_quantity := 20, is_approved := true,
     product_photo_urls := [] }]

/-- The spec's worked example: three orders, two containing Company A's
products (prices 200 and 150, quantities 1 and 2), one containing none. -/
def exampleOrders : List OrderRow :=
  [{ id := "o1", total_amount := 200, status := "pending",
     order_items := some [⟨"p1", 200, 1⟩], purchase_day := 10 },
   { id := "o2", total_amount := 300, status := "delivered",
     order_items := some [⟨"p2", 150, 2⟩], purchase_day := 11 },
   { id := "o3", total_amount := 50, status := "pending",
     order_items := some [⟨"q9", 50, 1⟩], purchase_day := 11 }]

/-- A sample store state holding cached stats, for witnesses. -/
def sampleStats : DashboardStats :=
  { companyName := "A", totalProducts := 2, totalSalesAmount := 500,
    totalOrders := 2, pendingOrders := 1, activeListings := 2,
    outOfStockProducts := 0, lowStockProducts := [],
    allSellingProducts := [], chartSalesData := [0, 0, 0, 0, 0, 1, 1],
    chartDayKeys := [5, 6, 7, 8, 9, 10, 11] }

/-- A store state with a freshly cached value, for witnesses. -/
def sampleState : StoreState :=
  { stats := some sampleStats, loading := true, error := none,
    lastFetched := some 1000 }

/-- An empty store state, for witnesses. -/
def emptyState : StoreState :=
  { stats := none, loading := true, error := none, lastFetched := none }

/-- A backend where every read succeeds, for witnesses. -/
def sampleBackendOk : Backend :=
  { exn := none, sessionError := false, session := some "u1",
    companyError := false, companyData := some ("c1", "A"),
    productsError := false, productsData := some exampleProducts,
    ordersError := false, ordersData := some exampleOrders }

/-- A backend whose orders read fails, for witnesses. -/
def sampleBackendOrdersFail : Backend :=
  { exn := none, sessionError := false, session := some "u1",
    companyError := false, companyData := some ("c1", "A"),
    productsError := false, productsData := some exampleProducts,
    ordersError := true, ordersData := none }

/-- Sample address-form values, for witnesses. -/
def sampleFormValues : AddressFormValues :=
  { addressName := "Home", houseNumber := "12", street := "Main St",
    area := "Center", city := "Pune", state := "MH", country := "India",
    pincode := "411001", primaryPhone := "9999999999", secondaryPhone := "" }

/-- A sample existing address, for witnesses. -/
def sampleAddress : Address :=
  { id := "a1", name := "Old", isDefault := true, houseNumber := "1",
    street := "Old St", area := "North", city := "Pune", state := "MH",
    country := "India", pincode := "411002", primaryPhone := "8888888888",
    secondaryPhone := "" }

/-- An order outside the seven-day chart window, for witnesses. -/
def sampleLateOrder : OrderRow :=
  { id := "o9", total_amount := 10, status := "pending",
    order_items := some [⟨"p1", 10, 1⟩], purchase_day := 100 }

/-!  Theorems. -/

/-- C7: the upload sanitization replaces each character that is not an ASCII
letter, digit, dot or hyphen with an underscore and leaves the allowed
characters unchanged (position by position, length preserved), and the
repository's own regression example sanitizes as its check expects. -/
theorem sanitizedFileName_spec :
    (∀ (s : String) (i : ℕ),
      (sanitizedFileName s).data[i]? =
        (s.data[i]?).map (fun c => if isSafeChar c then c else Char.ofNat 95)) ∧
    (∀ s : String, (sanitizedFileName s).length = s.length) ∧
    (∀ c : Char, isSafeChar c = true ↔
      ((Char.ofNat 97 ≤ c ∧ c ≤ Char.ofNat 122) ∨
       (Char.ofNat 65 ≤ c ∧ c ≤ Char.ofNat 90) ∨
       (Char.ofNat 48 ≤ c ∧ c ≤ Char.ofNat 57) ∨
       c = Char.ofNat 46 ∨ c = Char.ofNat 45)) ∧
    sanitizedFileName "Screenshot 2025-11-18 at 11.31.03 AM.png" =
      "Screenshot_2025-11-18_at_11.31.03_AM.png" := by
  refine ⟨fun s i => ?_, fun s => ?_, fun c => ?_, by decide⟩
  · show (s.data.map (fun c => if isSafeChar c then c else Char.ofNat 95))[i]? = _
    exact List.getElem?_map ..
  · show (sanitizedFileName s).data.length = s.data.length
    show (s.data.map (fun c => if isSafeChar c then c else Char.ofNat 95)).length
      = s.data.length
    exact List.length_map ..
  · simp only [isSafeChar, Bool.or_eq_true, Bool.and_eq_true, decide_eq_true_eq]
    tauto

/-- C4: both discount displays (the product page badge and the add/edit form)
show `round((1 - discount/original) * 100)`, and for
`discount ≤ original` the shown percentage is nonnegative. -/
theorem discountPercent_spec (o d : ℚ) (ho : 0 < o) (hd : d ≠ 0) :
    discountBadge o (some d) = some (discountPercentForm o d) ∧
    discountPercentForm o d = jsRound ((1 - d / o) * 100) ∧
    (d ≤ o → 0 ≤ discountPercentForm o d) := by
  have hne : o ≠ 0 := ne_of_gt ho
  have hq : (o - d) / o * 100 = (1 - d / o) * 100 := by
    field_simp
  refine ⟨?_, rfl, fun hdo => ?_⟩
  · simp only [discountBadge, displayPrice, Option.getD, if_neg hd,
      discountPercentForm]
    rw [hq]
  · have h1 : d / o ≤ 1 := (div_le_one ho).mpr hdo
    have h2 : (0 : ℚ) ≤ (1 - d / o) * 100 := by nlinarith
    have h3 : (0 : ℚ) ≤ (1 - d / o) * 100 + 1 / 2 := by linarith
    simpa [discountPercentForm, jsRound] using Int.le_floor.mpr (by linarith)

/-- Witness for `discountPercent_spec` at original price 200, discount 150. -/
theorem discountPercent_spec_witness :
    (0 : ℚ) < 200 ∧ (150 : ℚ) ≠ 0 ∧ (150 : ℚ) ≤ 200 ∧
    discountBadge 200 (some 150) = some (discountPercentForm 200 150) ∧
    0 ≤ discountPercentForm 200 150 := by
  have h := discountPercent_spec 200 150 (by norm_num) (by norm_num)
  exact ⟨by norm_num, by norm_num, by norm_num, h.1, h.2.2 (by norm_num)⟩

/-- C5: the dashboard partitions products with the exact thresholds
`stock_quantity == 0` (out of stock) and `0 < stock_quantity < 10` (low
stock), and the product-card `stockStatus` labels `stock_quantity == 0` as
out of stock and any quantity in `(0, 10)` as "Only Few Left". -/
theorem stockClassification_spec :
    (∀ (cname : String) (products : List ProductRow) (orders : List OrderRow)
      (today : ℤ),
      (computeStats cname products orders today).outOfStockProducts =
        (products.filter (fun p => p.stock_quantity = 0)).length ∧
      (∀ p : ProductRow,
        p ∈ (computeStats cname products orders today).lowStockProducts ↔
          (p ∈ products ∧ 0 < p.stock_quantity ∧ p.stock_quantity < 10))) ∧
    (∀ n : ℤ, (stockStatus (some n) = StockLabel.outOfStock ↔ n = 0) ∧
      (0 < n ∧ n < 10 → stockStatus (some n) = StockLabel.onlyFewLeft)) := by
  refine ⟨fun cname products orders today => ⟨rfl, fun p => ?_⟩, fun n => ⟨?_, ?_⟩⟩
  · simp [computeStats, List.mem_filter]
  · by_cases hn : n = 0
    · simp [stockStatus, hn]
    · simp only [stockStatus, Option.some.injEq, if_neg hn]
      split <;> simp_all
  · rintro ⟨h1, h2⟩
    have hn : ¬ (n = 0) := by omega
    simp [stockStatus, hn, h2]

/-- Witness for `stockClassification_spec`: quantity 5 is classified low
stock / "Only Few Left". -/
theorem stockClassification_spec_witness :
    ((0 : ℤ) < 5 ∧ (5 : ℤ) < 10) ∧
    stockStatus (some 5) = StockLabel.onlyFewLeft ∧
    (computeStats "A" exampleProducts exampleOrders 11).outOfStockProducts =
      (exampleProducts.filter (fun p => p.stock_quantity = 0)).length :=
  ⟨by decide, (stockClassification_spec.2 5).2 (by decide),
    (stockClassification_spec.1 "A" exampleProducts exampleOrders 11).1⟩

/-- Mapping every address to non-default leaves nothing flagged default. -/
theorem filter_isDefault_map_false (l : List Address) :
    (l.map (fun a => { a with isDefault := false })).filter
      (fun a => a.isDefault) = [] := by
  induction l with
  | nil => rfl
  | cons a l ih => simp [List.filter_cons, ih]

/-- If no address of the list carries the edited id, the update path flags
nothing as default. -/
theorem submitUpdate_no_match_count (eid : String) (v : AddressFormValues)
    (l : List Address) (h : ∀ a ∈ l, ¬ a.id = eid) :
    defaultCount (submitUpdateAddresses eid v l) = 0 := by
  unfold submitUpdateAddresses defaultCount
  rw [List.map_congr_left (fun a ha => if_neg (h a ha))]
  rw [filter_isDefault_map_false]
  rfl

/-- C8: both submission paths of the address form write back a list with
exactly one default address; on the create path the appended new address is
the default, and on the edit path only the edited id can be flagged. -/
theorem addressDefaultFlag_spec :
    (∀ (newId : String) (v : AddressFormValues) (addrs : List Address),
      defaultCount (submitCreateAddresses newId v addrs) = 1 ∧
      ∃ a ∈ submitCreateAddresses newId v addrs,
        a.isDefault = true ∧ a.id = newId) ∧
    (∀ (eid : String) (v : AddressFormValues) (addrs : List Address),
      ((addrs.filter (fun a => a.id = eid)).length = 1 →
        defaultCount (submitUpdateAddresses eid v addrs) = 1) ∧
      (∀ a ∈ submitUpdateAddresses eid v addrs,
        a.isDefault = true → a.id = eid)) := by
  constructor
  · intro newId v addrs
    constructor
    · unfold submitCreateAddresses defaultCount
      rw [List.filter_append, filter_isDefault_map_false]
      rfl
    · refine ⟨_, List.mem_append_right _ (List.mem_singleton_self _), rfl, rfl⟩
  · intro eid v addrs
    constructor
    · induction addrs with
      | nil => intro h; simp [List.filter] at h
      | cons a l ih =>
        intro h
        by_cases hid : a.id = eid
        · have hl : (l.filter (fun x => x.id = eid)).length = 0 := by
            simp only [List.filter_cons, decide_eq_true_eq, if_pos hid,
              List.length_cons] at h
            omega
          have hnone : ∀ x ∈ l, ¬ x.id = eid := by
            intro x hx hx2
            have := List.filter_eq_nil_iff.mp (List.length_eq_zero.mp hl) x hx
            simp [hx2] at this
          show defaultCount
            ((a :: l).map (fun x =>
              if x.id = eid then _ else { x with isDefault := false })) = 1
          rw [List.map_cons, if_pos hid]
          unfold defaultCount
          rw [List.filter_cons]
          simp only [decide_eq_true_eq]
          rw [if_pos trivial, List.length_cons]
          have h0 := submitUpdate_no_match_count eid v l hnone
          unfold submitUpdateAddresses defaultCount at h0
          omega
        · have hl : (l.filter (fun x => x.id = eid)).length = 1 := by
            simpa [List.filter_cons, hid] using h
          show defaultCount
            ((a :: l).map (fun x =>
              if x.id = eid then _ else { x with isDefault := false })) = 1
          rw [List.map_cons, if_neg hid]
          unfold defaultCount
          rw [List.filter_cons]
          simp only [decide_eq_true_eq]
          rw [if_neg (by simp)]
          exact ih hl
    · intro a ha hd
      obtain ⟨x, hx, hgx⟩ := List.mem_map.mp ha
      by_cases hid : x.id = eid
      · rw [if_pos hid] at hgx
        rw [← hgx]
        exact hid
      · rw [if_neg hid] at hgx
        rw [← hgx] at hd
        simp at hd

/-- Witness for `addressDefaultFlag_spec`: editing the single existing
address keeps exactly one default. -/
theorem addressDefaultFlag_spec_witness :
    (([sampleAddress].filter (fun a => a.id = "a1")).length = 1) ∧
    defaultCount (submitUpdateAddresses "a1" sampleFormValues [sampleAddress]) = 1 :=
  ⟨by decide,
    ((addressDefaultFlag_spec.2 "a1" sampleFormValues [sampleAddress]).1 (by decide))⟩

/-- The storage URL construction never returns the empty string. -/
theorem getPublicUrl_ne_empty (bucket path : String) :
    getPublicUrl bucket path ≠ "" := by
  intro h
  have hlen := congrArg String.length h
  simp only [getPublicUrl, String.length_append] at hlen
  have hbase : supabaseStorageBase.length = 53 := by decide
  have hslash : ("/" : String).length = 1 := by decide
  have hnil : ("" : String).length = 0 := by decide
  rw [hbase, hslash, hnil] at hlen
  omega

/-- C6 counterexample: the claim does not hold at every call site of the
helper. The home-page copy hands the stored path to the storage client
without decoding it, and the edit-product copy returns the empty string, not
the placeholder, for a missing path. -/
theorem urlHelper_counterexample :
    getPublicUrlFromPathHome (some "a%20b") ≠
      getPublicUrl "product-media" (decodeURIComponent "a%20b") ∧
    getPublicUrlFromPathEditProduct none ≠ "/placeholder.svg" := by
  constructor <;> decide

/-- C6 amended: the product-detail page's helper (shared verbatim by the
favorites and orders pages) satisfies the contract — placeholder for a
missing or empty path, otherwise one percent-decoding followed by the
storage client's URL construction — while the home-page copy delegates
without decoding and the edit-product copy returns the empty string for a
missing path and does not decode. -/
theorem urlHelper_amended_spec :
    getPublicUrlFromPath none = "/placeholder.svg" ∧
    getPublicUrlFromPath (some "") = "/placeholder.svg" ∧
    (∀ p : String, p ≠ "" →
      getPublicUrlFromPath (some p) =
        getPublicUrl "product-media" (decodeURIComponent p)) ∧
    (∀ p : String, p ≠ "" →
      getPublicUrlFromPathHome (some p) = getPublicUrl "product-media" p) ∧
    getPublicUrlFromPathEditProduct none = "" := by
  refine ⟨rfl, rfl, fun p hp => ?_, fun p hp => ?_, rfl⟩
  · simp only [getPublicUrlFromPath, if_neg hp]
    rw [if_neg (getPublicUrl_ne_empty _ _)]
  · simp only [getPublicUrlFromPathHome, if_neg hp]
    rw [if_neg (getPublicUrl_ne_empty _ _)]

/-- Witness for `urlHelper_amended_spec` on the percent-escaped path
`a%20b`. -/
theorem urlHelper_amended_spec_witness :
    ("a%20b" ≠ "") ∧
    getPublicUrlFromPath (some "a%20b") =
      getPublicUrl "product-media" (decodeURIComponent "a%20b") :=
  ⟨by decide, urlHelper_amended_spec.2.2.1 "a%20b" (by decide)⟩

/-- The inner item loop's flag equals: the initial flag, or some item's
product belongs to the company. -/
theorem itemFold_fst (ids : List String) (items : List OrderItemRow) :
    ∀ st : Bool × ℚ × List (String × ℕ × ℚ),
      (items.foldl (itemStep ids) st).1 =
        (st.1 || items.any (fun it => ids.contains it.product_id)) := by
  induction items with
  | nil => intro st; simp
  | cons it l ih =>
    intro st
    rw [List.foldl_cons, List.any_cons]
    by_cases h : it.product_id ∈ ids
    · simp [itemStep, h, ih]
    · simp [itemStep, h, ih]

/-- The inner item loop's accumulated amount equals: the initial amount plus
the sum of `price * quantity` over the company-owned items. -/
theorem itemFold_amount (ids : List String) (items : List OrderItemRow) :
    ∀ st : Bool × ℚ × List (String × ℕ × ℚ),
      (items.foldl (itemStep ids) st).2.1 =
        st.2.1 + itemsCompanyAmount ids items := by
  induction items with
  | nil => intro st; simp [itemsCompanyAmount]
  | cons it l ih =>
    intro st
    rw [List.foldl_cons]
    by_cases h : it.product_id ∈ ids
    · rw [ih]
      simp [itemStep, itemsCompanyAmount, List.filter_cons, h]
      ring
    · rw [ih]
      simp [itemStep, itemsCompanyAmount, List.filter_cons, h]

/-- The outer order loop counts exactly the orders containing a company
product. -/
theorem aggFold_totalOrders (ids : List String) (orders : List OrderRow) :
    ∀ st : AggState,
      (orders.foldl (orderStep ids) st).totalOrders =
        st.totalOrders +
          (orders.filter (fun o => orderHasCompanyProduct ids o)).length := by
  induction orders with
  | nil => intro st; simp
  | cons o l ih =>
    intro st
    rw [List.foldl_cons, List.filter_cons]
    have hfst : ((o.order_items.getD []).foldl (itemStep ids)
        (false, 0, st.productSales)).1 = orderHasCompanyProduct ids o := by
      rw [itemFold_fst]
      simp [orderHasCompanyProduct]
    rw [ih]
    by_cases hco : orderHasCompanyProduct ids o = true
    · simp [orderStep, hfst, hco]
      omega
    · simp [orderStep, hfst, hco]

/-- The outer order loop adds exactly the company-owned amounts of the
orders containing a company product. -/
theorem aggFold_totalSales (ids : List String) (orders : List OrderRow) :
    ∀ st : AggState,
      (orders.foldl (orderStep ids) st).totalSalesAmount =
        st.totalSalesAmount +
          (((orders.filter (fun o => orderHasCompanyProduct ids o)).map
            (orderCompanyAmount ids)).sum) := by
  induction orders with
  | nil => intro st; simp
  | cons o l ih =>
    intro st
    rw [List.foldl_cons, List.filter_cons]
    have hfst : ((o.order_items.getD []).foldl (itemStep ids)
        (false, 0, st.productSales)).1 = orderHasCompanyProduct ids o := by
      rw [itemFold_fst]
      simp [orderHasCompanyProduct]
    have hamt : ((o.order_items.getD []).foldl (itemStep ids)
        (false, 0, st.productSales)).2.1 = orderCompanyAmount ids o := by
      rw [itemFold_amount]
      simp [orderCompanyAmount]
    rw [ih]
    by_cases hco : orderHasCompanyProduct ids o = true
    · simp [orderStep, hfst, hamt, hco]
      ring
    · simp [orderStep, hfst, hco]

/-- Bumping a keyed count list at key `k` increments exactly the entries
with key `k` (and nothing when `k` is absent). -/
theorem bumpDate_map (days : List ℤ) (f : ℤ → ℕ) (k : ℤ) :
    bumpDate (days.map (fun d => (d, f d))) k =
      days.map (fun d => (d, if d = k then f d + 1 else f d)) := by
  unfold bumpDate
  by_cases h : (days.map (fun d => (d, f d))).any (fun e => e.1 = k) = true
  · rw [if_pos h, List.map_map]
    apply List.map_congr_left
    intro d _
    by_cases hd : d = k <;> simp [hd]
  · rw [if_neg h]
    have hnd : ∀ d ∈ days, ¬ (d = k) := by
      intro d hd hdk
      apply h
      refine List.any_eq_true.mpr ⟨(d, f d), List.mem_map_of_mem _ hd, by simp [hdk]⟩
    apply List.map_congr_left
    intro d hd
    simp [hnd d hd]

/-- The outer order loop adds, at each chart key, exactly the number of
company-relevant orders purchased on that day. -/
theorem aggFold_salesByDate (ids : List String) (days : List ℤ)
    (orders : List OrderRow) :
    ∀ (st : AggState) (f : ℤ → ℕ),
      st.salesByDate = days.map (fun d => (d, f d)) →
      (orders.foldl (orderStep ids) st).salesByDate =
        days.map (fun d => (d, f d + chartOrderCount ids orders d)) := by
  induction orders with
  | nil =>
    intro st f h
    simp [chartOrderCount, h]
  | cons o l ih =>
    intro st f h
    rw [List.foldl_cons]
    have hfst : ((o.order_items.getD []).foldl (itemStep ids)
        (false, 0, st.productSales)).1 = orderHasCompanyProduct ids o := by
      rw [itemFold_fst]
      simp [orderHasCompanyProduct]
    by_cases hco : orderHasCompanyProduct ids o = true
    · have hnew : (orderStep ids st o).salesByDate =
          days.map (fun d => (d, if d = o.purchase_day then f d + 1 else f d)) := by
        simp only [orderStep, hfst, hco, if_true, h]
        exact bumpDate_map days f o.purchase_day
      rw [ih (orderStep ids st o)
        (fun d => if d = o.purchase_day then f d + 1 else f d) hnew]
      apply List.map_congr_left
      intro d _
      have hcnt : chartOrderCount ids (o :: l) d =
          (if o.purchase_day = d then 1 else 0) + chartOrderCount ids l d := by
        unfold chartOrderCount
        rw [List.filter_cons]
        by_cases hd : o.purchase_day = d
        · simp [hco, hd]
          omega
        · simp [hco, hd]
      rw [hcnt]
      by_cases hd : d = o.purchase_day
      · subst hd
        rw [if_pos rfl, if_pos rfl]
        have harith : f o.purchase_day + 1 + chartOrderCount ids l o.purchase_day =
            f o.purchase_day + (1 + chartOrderCount ids l o.purchase_day) := by
          omega
        rw [harith]
      · rw [if_neg hd, if_neg (fun hx => hd hx.symm)]
        simp
    · have hnew : (orderStep ids st o).salesByDate =
          days.map (fun d => (d, f d)) := by
        simp [orderStep, hfst, hco, h]
      rw [ih (orderStep ids st o) f hnew]
      apply List.map_congr_left
      intro d _
      have hcnt : chartOrderCount ids (o :: l) d = chartOrderCount ids l d := by
        unfold chartOrderCount
        rw [List.filter_cons]
        simp [hco]
      rw [hcnt]

/-- Inserting below the head of a day-sorted list prepends. -/
theorem sortByDay_sorted_id :
    ∀ l : List (ℤ × ℕ), List.Chain' (fun a b => a.1 ≤ b.1) l →
      sortByDay l = l := by
  intro l
  induction l with
  | nil => intro h; rfl
  | cons a l ih =>
    intro h
    show insertByDay a (sortByDay l) = a :: l
    rw [ih h.tail]
    cases l with
    | nil => rfl
    | cons b m =>
      have hab : a.1 ≤ b.1 := (List.chain'_cons.mp h).1
      simp [insertByDay, hab]

/-- The seven chart day keys, written out. -/
theorem chartDays_eq (t : ℤ) :
    chartDays t = [t - 6, t - 5, t - 4, t - 3, t - 2, t - 1, t] := by
  unfold chartDays
  rw [show List.range 7 = [0, 1, 2, 3, 4, 5, 6] from rfl]
  simp [List.map_cons]
  omega

/-- The chart day keys ascend. -/
theorem chartDays_chain (t : ℤ) :
    List.Chain' (fun a b : ℤ => a ≤ b) (chartDays t) := by
  rw [chartDays_eq]
  simp [List.chain'_cons]
  omega

/-- Sorting the chart's keyed counts by day is the identity: the keys were
inserted oldest first. -/
theorem sortByDay_chartMap (t : ℤ) (f : ℤ → ℕ) :
    sortByDay ((chartDays t).map (fun d => (d, f d))) =
      (chartDays t).map (fun d => (d, f d)) := by
  apply sortByDay_sorted_id
  rw [List.chain'_map]
  simpa using chartDays_chain t

/-- The chart of the computed stats: one count per chart day, and the keys
are exactly the chart days. -/
theorem computeStats_chart (cname : String) (products : List ProductRow)
    (orders : List OrderRow) (today : ℤ) :
    (computeStats cname products orders today).chartSalesData =
      (chartDays today).map
        (fun d => chartOrderCount (products.map (fun p => p.id)) orders d) ∧
    (computeStats cname products orders today).chartDayKeys = chartDays today := by
  have hinit : (aggregateOrders (products.map (fun p => p.id)) today
      orders).salesByDate =
      (chartDays today).map (fun d => (d,
        chartOrderCount (products.map (fun p => p.id)) orders d)) := by
    have h := aggFold_salesByDate (products.map (fun p => p.id))
      (chartDays today) orders
      { totalSalesAmount := 0, totalOrders := 0, pendingOrders := 0,
        productSales := [],
        salesByDate := (chartDays today).map (fun d => (d, 0)) }
      (fun _ => 0) rfl
    simpa [aggregateOrders] using h
  constructor
  · show (sortByDay (aggregateOrders _ today orders).salesByDate).map _ = _
    rw [hinit, sortByDay_chartMap, List.map_map]
    rfl
  · show (sortByDay (aggregateOrders _ today orders).salesByDate).map _ = _
    rw [hinit, sortByDay_chartMap, List.map_map]
    exact List.map_id _

/-- C3: in the dashboard aggregation an order contributes to `totalOrders`
and `totalSalesAmount` exactly when one of its items references a company
product; it then adds 1 order and the sum of `price_at_purchase * quantity`
over its company-owned items; on the spec's worked example the totals are
2 orders and 500. -/
theorem orderAggregation_spec :
    (∀ (cname : String) (products : List ProductRow) (orders : List OrderRow)
      (today : ℤ),
      (computeStats cname products orders today).totalOrders =
        (orders.filter
          (fun o => orderHasCompanyProduct (products.map (fun p => p.id)) o)).length ∧
      (computeStats cname products orders today).totalSalesAmount =
        ((orders.filter
          (fun o => orderHasCompanyProduct (products.map (fun p => p.id)) o)).map
          (orderCompanyAmount (products.map (fun p => p.id)))).sum) ∧
    (computeStats "A" exampleProducts exampleOrders 11).totalOrders = 2 ∧
    (computeStats "A" exampleProducts exampleOrders 11).totalSalesAmount = 500 := by
  have hgen : ∀ (cname : String) (products : List ProductRow)
      (orders : List OrderRow) (today : ℤ),
      (computeStats cname products orders today).totalOrders =
        (orders.filter
          (fun o => orderHasCompanyProduct (products.map (fun p => p.id)) o)).length ∧
      (computeStats cname products orders today).totalSalesAmount =
        ((orders.filter
          (fun o => orderHasCompanyProduct (products.map (fun p => p.id)) o)).map
          (orderCompanyAmount (products.map (fun p => p.id)))).sum := by
    intro cname products orders today
    constructor
    · simp [computeStats, aggregateOrders, aggFold_totalOrders]
    · simp [computeStats, aggregateOrders, aggFold_totalSales]
  refine ⟨hgen, ?_, ?_⟩
  · rw [(hgen "A" exampleProducts exampleOrders 11).1]
    decide
  · rw [(hgen "A" exampleProducts exampleOrders 11).2]
    simp [exampleOrders, exampleProducts, orderHasCompanyProduct,
      orderCompanyAmount, itemsCompanyAmount]
    norm_num

/-- C10: after a refresh the chart series has exactly seven entries, one per
calendar day from six days before the refresh day up to the refresh day,
oldest first; the entry of a day counts the company-relevant orders
purchased that day, and orders dated outside the window change nothing. -/
theorem chartSeries_spec (cname : String) (products : List ProductRow)
    (orders : List OrderRow) (today : ℤ) :
    (computeStats cname products orders today).chartSalesData.length = 7 ∧
    (computeStats cname products orders today).chartSalesData =
      (List.range 7).map (fun i =>
        chartOrderCount (products.map (fun p => p.id)) orders
          (today - 6 + (i : ℤ))) ∧
    (computeStats cname products orders today).chartDayKeys = chartDays today ∧
    (∀ o : OrderRow, o.purchase_day < today - 6 ∨ today < o.purchase_day →
      (computeStats cname products (orders ++ [o]) today).chartSalesData =
        (computeStats cname products orders today).chartSalesData) := by
  obtain ⟨hdata, hkeys⟩ := computeStats_chart cname products orders today
  refine ⟨?_, ?_, hkeys, ?_⟩
  · rw [hdata, chartDays_eq]
    rfl
  · rw [hdata]
    unfold chartDays
    rw [List.map_map]
    rfl
  · intro o ho
    obtain ⟨hdata2, _⟩ := computeStats_chart cname products (orders ++ [o]) today
    rw [hdata, hdata2]
    apply List.map_congr_left
    intro d hd
    have hdr : today - 6 ≤ d ∧ d ≤ today := by
      rw [chartDays_eq] at hd
      simp only [List.mem_cons, List.mem_singleton, List.not_mem_nil] at hd
      rcases hd with h | h | h | h | h | h | h | h <;>
        first | omega | exact absurd h (by simp)
    have hne : ¬ (o.purchase_day = d) := by omega
    unfold chartOrderCount
    rw [List.filter_append]
    simp [hne]

/-- Witness for `chartSeries_spec`: an order dated on day 100 does not
change the chart computed for day 11. -/
theorem chartSeries_spec_witness :
    (sampleLateOrder.purchase_day < (11 : ℤ) - 6 ∨
      (11 : ℤ) < sampleLateOrder.purchase_day) ∧
    (computeStats "A" exampleProducts
        (exampleOrders ++ [sampleLateOrder]) 11).chartSalesData =
      (computeStats "A" exampleProducts exampleOrders 11).chartSalesData :=
  ⟨Or.inr (by decide),
    (chartSeries_spec "A" exampleProducts exampleOrders 11).2.2.2
      sampleLateOrder (Or.inr (by decide))⟩

/-- C1: a non-forced `fetchStats` call finding cached stats with a (truthy)
`lastFetched` under five minutes old issues no table read and leaves
`stats`, `error` and `lastFetched` unchanged; only `loading` is forced to
false. -/
theorem cacheFresh_spec (force : Bool) (now fetchTime today : ℤ) (b : Backend)
    (s : StoreState) (st : DashboardStats) (t : ℤ)
    (hforce : force = false) (hstats : s.stats = some st)
    (hlf : s.lastFetched = some t) (ht : t ≠ 0)
    (hfresh : now - t < CACHE_DURATION) :
    (fetchStats force now fetchTime today b s).1.stats = s.stats ∧
    (fetchStats force now fetchTime today b s).1.error = s.error ∧
    (fetchStats force now fetchTime today b s).1.lastFetched = s.lastFetched ∧
    (fetchStats force now fetchTime today b s).1.loading = false ∧
    (fetchStats force now fetchTime today b s).2 = [] := by
  have hhit : cacheHit force now s = true := by
    simp [cacheHit, hforce, hstats, hlf, ht, hfresh]
  simp [fetchStats, hhit]

/-- Witness for `cacheFresh_spec`: a cache fetched at time 1000 and read at
time 2000 is served without any table read. -/
theorem cacheFresh_spec_witness :
    (sampleState.stats = some sampleStats) ∧
    (sampleState.lastFetched = some 1000) ∧ ((1000 : ℤ) ≠ 0) ∧
    ((2000 : ℤ) - 1000 < CACHE_DURATION) ∧
    (fetchStats false 2000 2500 11 sampleBackendOk sampleState).2 = [] :=
  ⟨rfl, rfl, by decide, by decide,
    (cacheFresh_spec false 2000 2500 11 sampleBackendOk sampleState
      sampleStats 1000 rfl rfl rfl (by decide) (by decide)).2.2.2.2⟩

/-- C2: when any backend read of a (non-cache-served) refresh fails or an
exception is thrown, the refresh aborts atomically: the cached stats and
`lastFetched` are unchanged and `error` is set to a non-null string. -/
theorem errorAtomicity_spec (force : Bool) (now fetchTime today : ℤ)
    (b : Backend) (s : StoreState)
    (hmiss : cacheHit force now s = false)
    (hfail : b.exn.isSome = true ∨ b.sessionError = true ∨ b.session = none ∨
      b.companyError = true ∨ b.companyData = none ∨ b.productsError = true ∨
      b.ordersError = true) :
    (fetchStats force now fetchTime today b s).1.stats = s.stats ∧
    (fetchStats force now fetchTime today b s).1.lastFetched = s.lastFetched ∧
    ∃ e : String, (fetchStats force now fetchTime today b s).1.error = some e := by
  have hs0stats : (if s.stats.isNone then
      { s with loading := true, error := none } else s).stats = s.stats := by
    split <;> rfl
  have hs0lf : (if s.stats.isNone then
      { s with loading := true, error := none } else s).lastFetched =
      s.lastFetched := by
    split <;> rfl
  unfold fetchStats
  rw [hmiss]
  simp only [Bool.false_eq_true, if_false]
  rcases hexn : b.exn with _ | msg
  · by_cases h1 : (b.sessionError || b.session.isNone) = true
    · simp only [h1, if_true]
      exact ⟨hs0stats, hs0lf, _, rfl⟩
    · simp only [h1, if_false]
      by_cases h2 : (b.companyError || b.companyData.isNone) = true
      · simp only [h2, if_true]
        exact ⟨hs0stats, hs0lf, _, rfl⟩
      · simp only [h2, if_false]
        by_cases h3 : b.productsError = true
        · simp only [h3, if_true]
          exact ⟨hs0stats, hs0lf, _, rfl⟩
        · simp only [h3, if_false]
          by_cases h4 : b.ordersError = true
          · simp only [h4, if_true]
            exact ⟨hs0stats, hs0lf, _, rfl⟩
          · exfalso
            rcases hfail with h | h | h | h | h | h | h
            · rw [hexn] at h
              simp at h
            · simp [h] at h1
            · simp [h] at h1
            · simp [h] at h2
            · simp [h] at h2
            · exact h3 h
            · exact h4 h
  · exact ⟨hs0stats, hs0lf, _, rfl⟩

/-- Witness for `errorAtomicity_spec`: a forced refresh whose orders read
fails keeps the cached value and surfaces an error. -/
theorem errorAtomicity_spec_witness :
    (cacheHit true 2000 sampleState = false) ∧
    (sampleBackendOrdersFail.ordersError = true) ∧
    (fetchStats true 2000 2500 11 sampleBackendOrdersFail sampleState).1.stats =
      sampleState.stats ∧
    (fetchStats true 2000 2500 11 sampleBackendOrdersFail
        sampleState).1.lastFetched = sampleState.lastFetched ∧
    ∃ e : String, (fetchStats true 2000 2500 11 sampleBackendOrdersFail
      sampleState).1.error = some e := by
  have h := errorAtomicity_spec true 2000 2500 11 sampleBackendOrdersFail
    sampleState (by decide)
    (Or.inr (Or.inr (Or.inr (Or.inr (Or.inr (Or.inr rfl))))))
  exact ⟨by decide, rfl, h.1, h.2.1, h.2.2⟩

/-- C9: a refresh not served from the cache whose reads all succeed issues
exactly the three table reads, in the order companies, products, orders,
aggregates client-side via `computeStats`, overwrites the cached stats and
sets `lastFetched` to the fresh timestamp. -/
theorem refreshSuccess_spec (force : Bool) (now fetchTime today : ℤ)
    (b : Backend) (s : StoreState) (cid cname : String)
    (hmiss : cacheHit force now s = false)
    (hexn : b.exn = none) (hse : b.sessionError = false)
    (hsess : b.session.isSome = true)
    (hce : b.companyError = false) (hcd : b.companyData = some (cid, cname))
    (hpe : b.productsError = false) (hoe : b.ordersError = false) :
    fetchStats force now fetchTime today b s =
      ({ stats := some (computeStats cname (b.productsData.getD [])
            (b.ordersData.getD []) today),
         loading := false, error := none, lastFetched := some fetchTime },
       [ReadOp.readCompanies, ReadOp.readProducts, ReadOp.readOrders]) := by
  unfold fetchStats
  rw [hmiss]
  simp [hexn, hse, hsess, hce, hcd, hpe, hoe,
    Option.isSome_iff_ne_none.mp hsess]

/-- Witness for `refreshSuccess_spec`: a successful refresh from the empty
store issues the companies, products and orders reads in order. -/
theorem refreshSuccess_spec_witness :
    (cacheHit false 2000 emptyState = false) ∧
    (sampleBackendOk.companyData = some ("c1", "A")) ∧
    (fetchStats false 2000 2500 11 sampleBackendOk emptyState).2 =
      [ReadOp.readCompanies, ReadOp.readProducts, ReadOp.readOrders] := by
  have h := refreshSuccess_spec false 2000 2500 11 sampleBackendOk emptyState
    "c1" "A" (by decide) rfl rfl rfl rfl rfl rfl rfl
  exact ⟨by decide, rfl, by rw [h]⟩

end Organixa
